import Mathlib

/-!
Shallow embedding of the LauncherCore authentication pipeline.

Rust strings are modelled as lists of characters (the flows under study only
handle ASCII data, where byte indices and character indices coincide).  HTTP
transports are modelled as explicit arguments: a scripted response, a response
list for the polling loop, or a response-producing function.  Fallible Rust
code (anyhow Results) is modelled with Except; a Rust panic (out-of-bounds
string slicing) is modelled with a dedicated outcome constructor, distinct
from every error return.
-/

namespace LauncherCore

/-! ## String helpers, modelling Rust str operations -/

/-- Models Rust str::starts_with for a needle and a haystack. -/
def isPrefixChars : List Char → List Char → Bool
  | [], _ => true
  | _ :: _, [] => false
  | n :: ns, h :: hs => n == h && isPrefixChars ns hs

/-- Models Rust str::contains: the needle occurs as a contiguous substring. -/
def strContains (hay needle : List Char) : Bool :=
  match hay with
  | [] => needle.isEmpty
  | _ :: t => isPrefixChars needle hay || strContains t needle

/-- Models Rust str::trim (strip leading and trailing whitespace). -/
def trimChars (s : List Char) : List Char :=
  ((s.dropWhile Char.isWhitespace).reverse.dropWhile Char.isWhitespace).reverse

/-- Models Rust str::trim_end_matches applied to a slash: remove every
trailing slash character. -/
def trimEndMatchesSlash (s : List Char) : List Char :=
  (s.reverse.dropWhile (fun c => c == '/')).reverse

/-- Models reqwest StatusCode::is_success, true exactly for 200..=299. -/
def isSuccessStatus (st : Nat) : Bool :=
  200 ≤ st && st < 300

/-- Models a Rust byte-range slice expression such as id[a..b]: defined (some)
exactly when the range lies inside the string; none models the panic the
slice raises on an out-of-range index. -/
def rustSlice (s : List Char) (a b : Nat) : Option (List Char) :=
  if a ≤ b ∧ b ≤ s.length then some ((s.drop a).take (b - a)) else none

/-! ## yggdrasil.rs: format_uuid -/

/-- Embeds yggdrasil.rs format_uuid: when the id is exactly 32 characters
long, insert hyphens after characters 8, 12, 16 and 20; any other input is
returned unchanged.  The slices of the source are in-bounds thanks to the
length guard, so take and drop render them exactly. -/
def format_uuid (uuid : List Char) : List Char :=
  if uuid.length = 32 then
    uuid.take 8 ++ '-' :: (uuid.drop 8).take 4 ++ '-' :: (uuid.drop 12).take 4
      ++ '-' :: (uuid.drop 16).take 4 ++ '-' :: (uuid.drop 20).take 12
  else
    uuid

/-- A sample 32-character hex id used by concrete instances. -/
def hex32 : List Char :=
  "0123456789abcdef0123456789abcdef".toList

/-! ## Error taxonomy

The Rust source reports every failure as an anyhow error carrying a distinct
message.  The distinct messages are embedded as distinct constructors; a
Rust panic is modelled separately (see ChainOutcome below), never as one of
these errors. -/

/-- The distinguishable failures of the authentication pipeline. -/
inductive AuthError where
  | transportError
  | parseError
  | providerError (status : Nat) (body : List Char)
  | timeout
  | expired
  | pollError (code : List Char) (body : List Char)
  | xblMissingUserHash
  | xstsMissingUserHash
  | noXboxAccount
  | childAccountNeedsFamily
  | regionBanned
  | noProfiles
  | userInfoNotAvailable
  | outOfResponses
deriving DecidableEq

deriving instance DecidableEq for Except

/-! ## models.rs: data structures used by auth.rs -/

/-- Embeds models.rs DeviceCodeResponse. -/
structure DeviceCodeResponse where
  device_code : List Char
  user_code : List Char
  verification_uri : List Char
  expires_in : Nat
  interval : Nat
  message : List Char
deriving DecidableEq

/-- Embeds models.rs MicrosoftTokenResponse. -/
structure MicrosoftTokenResponse where
  token_type : List Char
  expires_in : Nat
  scope : List Char
  access_token : List Char
  refresh_token : Option (List Char)
deriving DecidableEq

/-- Embeds models.rs XblXui. -/
structure XblXui where
  uhs : List Char
deriving DecidableEq

/-- Embeds models.rs XblDisplayClaims. -/
structure XblDisplayClaims where
  xui : List XblXui
deriving DecidableEq

/-- Embeds models.rs XblResponse. -/
structure XblResponse where
  token : List Char
  display_claims : XblDisplayClaims
deriving DecidableEq

/-- Embeds models.rs XstsXui. -/
structure XstsXui where
  uhs : List Char
  xid : Option (List Char)
deriving DecidableEq

/-- Embeds models.rs XstsDisplayClaims. -/
structure XstsDisplayClaims where
  xui : List XstsXui
deriving DecidableEq

/-- Embeds models.rs XstsResponse. -/
structure XstsResponse where
  token : List Char
  display_claims : XstsDisplayClaims
deriving DecidableEq

/-- Embeds models.rs MinecraftLoginResponse. -/
structure MinecraftLoginResponse where
  username : List Char
  roles : List (List Char)
  access_token : List Char
  token_type : List Char
  expires_in : Nat
deriving DecidableEq

/-- Embeds models.rs MinecraftProfile. -/
structure MinecraftProfile where
  id : List Char
  name : List Char
deriving DecidableEq

/-- Embeds models.rs AuthCache, the Session value of the Microsoft chain. -/
structure AuthCache where
  access_token : List Char
  uuid : List Char
  username : List Char
deriving DecidableEq

/-! ## Transport model -/

/-- A scripted HTTP exchange for one endpoint: either the reqwest send fails
(transportErr, the question-mark return in the source), or a response with a
status, a raw body text, and the result of deserializing the body into the
expected shape (none models a serde failure, again a question-mark return). -/
inductive HttpResult (α : Type) where
  | transportErr
  | response (status : Nat) (body : List Char) (parsed : Option α)
deriving DecidableEq

/-- The deserialized payload a scripted exchange carries, if any. -/
def HttpResult.parsedOf {α : Type} : HttpResult α → Option α
  | .transportErr => none
  | .response _ _ p => p

/-- One scripted answer of the Microsoft token-poll endpoint.  On a non-2xx
answer the source tries to read the body as JSON and extract a string field
named error; errorCode carries the result of that extraction (none when the
body is not JSON or has no such field). -/
inductive PollResponse where
  | transportErr
  | success (parsed : Option MicrosoftTokenResponse)
  | failure (status : Nat) (errorCode : Option (List Char)) (body : List Char)
deriving DecidableEq

/-- The error code Microsoft returns while the user has not yet approved. -/
def authorizationPendingCode : List Char :=
  "authorization_pending".toList

/-- The error code asking the client to poll more slowly. -/
def slowDownCode : List Char :=
  "slow_down".toList

/-- The error code for an expired device code. -/
def expiredTokenCode : List Char :=
  "expired_token".toList

/-! ## auth.rs: authenticate_with_msa (device-code polling) -/

/-- Embeds the polling loop of auth.rs authenticate_with_msa over a virtual
clock in which only the sleeps advance time.  State: the scripted responses
the token endpoint still has in store, elapsed virtual seconds, sleeps
performed so far, and requests issued so far.  Each iteration first compares
elapsed time against expires_in (strictly), then sleeps max(interval, 1)
seconds, then issues the request.  Returns the outcome together with the
final sleep and request counters.  Running out of scripted responses is the
artificial outOfResponses outcome, never reached by the theorems below. -/
def pollLoop (expiresIn interval : Nat) :
    List PollResponse → Nat → Nat → Nat →
      Except AuthError MicrosoftTokenResponse × Nat × Nat
  | [], elapsed, sleeps, requests =>
    if elapsed > expiresIn then
      (.error .timeout, sleeps, requests)
    else
      (.error .outOfResponses, sleeps + 1, requests)
  | r :: rest, elapsed, sleeps, requests =>
    if elapsed > expiresIn then
      (.error .timeout, sleeps, requests)
    else
      let sleeps := sleeps + 1
      let elapsed := elapsed + max interval 1
      let requests := requests + 1
      match r with
      | .transportErr => (.error .transportError, sleeps, requests)
      | .success (some tok) => (.ok tok, sleeps, requests)
      | .success none => (.error .parseError, sleeps, requests)
      | .failure status errorCode body =>
        if status = 400 then
          match errorCode with
          | some code =>
            if code = authorizationPendingCode then
              pollLoop expiresIn interval rest elapsed sleeps requests
            else if code = slowDownCode then
              pollLoop expiresIn interval rest elapsed sleeps requests
            else if code = expiredTokenCode then
              (.error .expired, sleeps, requests)
            else
              (.error (.pollError code body), sleeps, requests)
          | none => (.error (.providerError status body), sleeps, requests)
        else
          (.error (.providerError status body), sleeps, requests)

/-- The scripted exchanges authenticate_with_msa consumes: the device-code
request's answer, then the token endpoint's answers in order. -/
structure MsaTransport where
  deviceCode : HttpResult DeviceCodeResponse
  polls : List PollResponse
deriving DecidableEq

/-- Embeds auth.rs authenticate_with_msa: request a device code, then poll.
Returns the outcome together with the sleep and request counters of the
polling loop. -/
def authenticate_with_msa (t : MsaTransport) :
    Except AuthError MicrosoftTokenResponse × Nat × Nat :=
  match t.deviceCode with
  | .transportErr => (.error .transportError, 0, 0)
  | .response status body parsed =>
    if isSuccessStatus status then
      match parsed with
      | none => (.error .parseError, 0, 0)
      | some dc => pollLoop dc.expires_in dc.interval t.polls 0 0 0
    else
      (.error (.providerError status body), 0, 0)

/-! ## auth.rs: token-exchange stages -/

/-- Embeds auth.rs get_xbl_token over a scripted exchange: non-2xx is a
provider error; a 2xx body parses into XblResponse whose first xui entry
supplies the user hash, an empty xui list being the missing-user-hash
error. -/
def get_xbl_token (r : HttpResult XblResponse) :
    Except AuthError (List Char × List Char) :=
  match r with
  | .transportErr => .error .transportError
  | .response status body parsed =>
    if isSuccessStatus status then
      match parsed with
      | none => .error .parseError
      | some xbl =>
        match xbl.display_claims.xui with
        | [] => .error .xblMissingUserHash
        | xui :: _ => .ok (xbl.token, xui.uhs)
    else
      .error (.providerError status body)

/-- The XSTS denial code for an account without an Xbox profile. -/
def xstsNoXboxCode : List Char :=
  "2148916233".toList

/-- The XSTS denial code for a child account outside a family. -/
def xstsChildCode : List Char :=
  "2148916238".toList

/-- The XSTS denial code for a region where Xbox Live is unavailable. -/
def xstsRegionCode : List Char :=
  "2148916235".toList

/-- Embeds auth.rs get_xsts_token over a scripted exchange.  On a non-2xx
status, a 403 body is probed for the three known denial codes in source
order (2148916233, then 2148916238, then 2148916235); any other failure is
the generic provider error carrying status and body.  A 2xx body parses
into XstsResponse whose first xui entry supplies the user hash. -/
def get_xsts_token (r : HttpResult XstsResponse) :
    Except AuthError (List Char × List Char) :=
  match r with
  | .transportErr => .error .transportError
  | .response status body parsed =>
    if isSuccessStatus status then
      match parsed with
      | none => .error .parseError
      | some xsts =>
        match xsts.display_claims.xui with
        | [] => .error .xstsMissingUserHash
        | xui :: _ => .ok (xsts.token, xui.uhs)
    else
      if status = 403 then
        if strContains body xstsNoXboxCode then
          .error .noXboxAccount
        else if strContains body xstsChildCode then
          .error .childAccountNeedsFamily
        else if strContains body xstsRegionCode then
          .error .regionBanned
        else
          .error (.providerError status body)
      else
        .error (.providerError status body)

/-- Embeds auth.rs login_to_minecraft over a scripted exchange. -/
def login_to_minecraft (r : HttpResult MinecraftLoginResponse) :
    Except AuthError MinecraftLoginResponse :=
  match r with
  | .transportErr => .error .transportError
  | .response status body parsed =>
    if isSuccessStatus status then
      match parsed with
      | none => .error .parseError
      | some mc => .ok mc
    else
      .error (.providerError status body)

/-- Embeds auth.rs get_minecraft_profile over a scripted exchange. -/
def get_minecraft_profile (r : HttpResult MinecraftProfile) :
    Except AuthError MinecraftProfile :=
  match r with
  | .transportErr => .error .transportError
  | .response status body parsed =>
    if isSuccessStatus status then
      match parsed with
      | none => .error .parseError
      | some profile => .ok profile
    else
      .error (.providerError status body)

/-! ## auth.rs: perform_full_authentication -/

/-- The hyphenated rendering the source builds for a profile id of length at
least 32: the slices id[0..8], id[8..12], id[12..16], id[16..20], id[20..32]
joined with hyphens.  For an id of length exactly 32 this inserts hyphens
after characters 8, 12, 16 and 20; for a longer id it silently uses only the
first 32 characters. -/
def dashedOf (id : List Char) : List Char :=
  id.take 8 ++ '-' :: (id.drop 8).take 4 ++ '-' :: (id.drop 12).take 4
    ++ '-' :: (id.drop 16).take 4 ++ '-' :: (id.drop 20).take 12

/-- The uuid-formatting expression of perform_full_authentication, rendered
with the partial slicing the source actually performs: the five slices
id[0..8], id[8..12], id[12..16], id[16..20] and id[20..32] are taken with no
length check, so the result is none — a panic — whenever the id is shorter
than 32 characters. -/
def formatProfileUuid (id : List Char) : Option (List Char) :=
  match rustSlice id 0 8, rustSlice id 8 12, rustSlice id 12 16,
      rustSlice id 16 20, rustSlice id 20 32 with
  | some s1, some s2, some s3, some s4, some s5 =>
    some (s1 ++ '-' :: s2 ++ '-' :: s3 ++ '-' :: s4 ++ '-' :: s5)
  | _, _, _, _, _ => none

/-- The result of running the full Microsoft chain: a Rust panic (from the
unchecked slicing of the profile id), an error surfaced to the caller, or a
completed session cache. -/
inductive ChainOutcome where
  | panics
  | fails (e : AuthError)
  | ok (cache : AuthCache)
deriving DecidableEq

/-- The scripted exchanges the full Microsoft chain consumes, stage by
stage. -/
structure ChainTransport where
  msa : MsaTransport
  xbl : HttpResult XblResponse
  xsts : HttpResult XstsResponse
  login : HttpResult MinecraftLoginResponse
  profile : HttpResult MinecraftProfile
deriving DecidableEq

/-- Embeds auth.rs perform_full_authentication: run the five stages in
sequence, abort on the first error, then format the profile id by unchecked
slicing (panicking when a slice is out of range) and assemble the AuthCache
from the Minecraft access token, the formatted uuid and the profile name. -/
def perform_full_authentication (t : ChainTransport) : ChainOutcome :=
  match (authenticate_with_msa t.msa).1 with
  | .error e => .fails e
  | .ok _ms_token =>
    match get_xbl_token t.xbl with
    | .error e => .fails e
    | .ok (_xbl_token, _user_hash) =>
      match get_xsts_token t.xsts with
      | .error e => .fails e
      | .ok (_xsts_token, _) =>
        match login_to_minecraft t.login with
        | .error e => .fails e
        | .ok mc_login =>
          match get_minecraft_profile t.profile with
          | .error e => .fails e
          | .ok profile =>
            match formatProfileUuid profile.id with
            | none => .panics
            | some formatted_uuid =>
              .ok { access_token := mc_login.access_token,
                    uuid := formatted_uuid,
                    username := profile.name }

/-! ## yggdrasil.rs: validate and invalidate -/

/-- Embeds models.rs YggdrasilValidateRequest, the payload both validate and
invalidate post. -/
structure YggdrasilValidateRequest where
  access_token : List Char
  client_token : Option (List Char)
deriving DecidableEq

/-- Embeds yggdrasil.rs YggdrasilAuthenticator::validate: build the request,
post it, and collapse the outcome to a boolean — a transport failure (the
send function returning none) is false, a response is judged by its status
alone.  The function returns Bool, so no failure mode can propagate as an
error. -/
def validate (access_token : List Char) (client_token : Option (List Char))
    (send : YggdrasilValidateRequest → Option Nat) : Bool :=
  let request : YggdrasilValidateRequest :=
    { access_token := access_token, client_token := client_token }
  match send request with
  | some status => isSuccessStatus status
  | none => false

/-- Embeds yggdrasil.rs YggdrasilAuthenticator::invalidate, which differs
from validate only in the endpoint it posts to; the send function stands for
that endpoint. -/
def invalidate (access_token : List Char) (client_token : Option (List Char))
    (send : YggdrasilValidateRequest → Option Nat) : Bool :=
  let request : YggdrasilValidateRequest :=
    { access_token := access_token, client_token := client_token }
  match send request with
  | some status => isSuccessStatus status
  | none => false

/-! ## yggdrasil.rs: resolve_api_url -/

/-- The discovery response resolve_api_url inspects: a status and the value
of the X-Authlib-Injector-API-Location header, if the header is present.  A
header whose bytes are not valid text is read by the source as the empty
string (to_str().unwrap_or("")), so it is modelled as some []. -/
structure AliResponse where
  status : Nat
  aliHeader : Option (List Char)
deriving DecidableEq

/-- The scheme prefix the source tests for and prepends. -/
def httpSchemeStr : List Char :=
  "http://".toList

/-- The https scheme prefix. -/
def httpsSchemeStr : List Char :=
  "https://".toList

/-- The normalization resolve_api_url applies to its input before the
discovery request: trim whitespace, strip trailing slashes, and default to
the https scheme when no scheme is given. -/
def normalizeInputUrl (initial_url : List Char) : List Char :=
  let url := trimEndMatchesSlash (trimChars initial_url)
  if isPrefixChars httpSchemeStr url || isPrefixChars httpsSchemeStr url then
    url
  else
    httpsSchemeStr ++ url

/-- Embeds yggdrasil.rs YggdrasilAuthenticator::resolve_api_url.  The send
function scripts the discovery GET (none is a transport failure, propagated
as an error by the question mark in the source); joinUrl scripts the external
url crate (Url::parse of the requested url followed by join with the header
value, rendered to a string; none models either library call failing, also
propagated as an error).  When the response is a success and carries a
non-empty header whose joined absolute form differs from the requested url,
that absolute form is adopted; in every other non-error case the requested
(normalized) url is kept.  Either way the returned url is stripped of
trailing slashes. -/
def resolve_api_url (initial_url : List Char)
    (send : List Char → Option AliResponse)
    (joinUrl : List Char → List Char → Option (List Char)) :
    Except AuthError (List Char) :=
  let url := normalizeInputUrl initial_url
  match send url with
  | none => .error .transportError
  | some res =>
    if isSuccessStatus res.status then
      match res.aliHeader with
      | some ali =>
        if ali.isEmpty then
          .ok (trimEndMatchesSlash url)
        else
          match joinUrl url ali with
          | none => .error .parseError
          | some absolute =>
            if absolute = url then
              .ok (trimEndMatchesSlash url)
            else
              .ok (trimEndMatchesSlash absolute)
      | none => .ok (trimEndMatchesSlash url)
    else
      .ok (trimEndMatchesSlash url)

/-! ## yggdrasil.rs: accounts -/

/-- Embeds models.rs YggdrasilProperty. -/
structure YggdrasilProperty where
  name : List Char
  value : List Char
  signature : Option (List Char)
deriving DecidableEq

/-- Embeds models.rs YggdrasilProfile. -/
structure YggdrasilProfile where
  id : List Char
  name : List Char
  properties : Option (List YggdrasilProperty)
deriving DecidableEq

/-- Embeds models.rs YggdrasilUser. -/
structure YggdrasilUser where
  id : List Char
  properties : List YggdrasilProperty
deriving DecidableEq

/-- Embeds models.rs YggdrasilAuthenticateResponse. -/
structure YggdrasilAuthenticateResponse where
  access_token : List Char
  client_token : List Char
  available_profiles : List YggdrasilProfile
  selected_profile : Option YggdrasilProfile
  user : Option YggdrasilUser
deriving DecidableEq

/-- Embeds yggdrasil.rs YggdrasilAccount, the persisted account record. -/
structure YggdrasilAccount where
  api_url : List Char
  server_name : Option (List Char)
  identifier : List Char
  uuid : List Char
  name : List Char
  access_token : List Char
  client_token : List Char
  user_id : List Char
  user_properties : List Char
deriving DecidableEq

/-- Embeds yggdrasil.rs
YggdrasilAccount::from_auth_response_with_profile_selection.  The
interactive console selector of the source (select_profile) is the injected
selector argument; serde serialization of the user properties, an external
library call that cannot fail on this data, is the injected serializeProps
argument.  When the response carries no selected profile and the available
list is empty the result is the no-profiles error; a missing user object is
the user-info-not-available error; otherwise the account record is built
with format_uuid applied to the selected profile id and to the user id. -/
def from_auth_response_with_profile_selection
    (selector : List YggdrasilProfile → Except AuthError YggdrasilProfile)
    (serializeProps : List YggdrasilProperty → List Char)
    (api_url : List Char) (server_name : Option (List Char))
    (identifier : List Char)
    (response : YggdrasilAuthenticateResponse) :
    Except AuthError YggdrasilAccount :=
  let selStep : Except AuthError YggdrasilProfile :=
    match response.selected_profile with
    | some profile => .ok profile
    | none =>
      if response.available_profiles.isEmpty then
        .error .noProfiles
      else
        selector response.available_profiles
  match selStep with
  | .error e => .error e
  | .ok selected_profile =>
    match response.user with
    | none => .error .userInfoNotAvailable
    | some user =>
      .ok { api_url := api_url,
            server_name := server_name,
            identifier := identifier,
            uuid := format_uuid selected_profile.id,
            name := selected_profile.name,
            access_token := response.access_token,
            client_token := response.client_token,
            user_id := format_uuid user.id,
            user_properties := serializeProps user.properties }

/-! ## launch_manager.rs: account store and session cache -/

/-- The key comparison of launch_manager.rs save_account and
find_account_by_identifier: exact identifier equality together with api_url
equality after stripping trailing slashes from both sides. -/
def sameAccountKey (account : YggdrasilAccount) (a : YggdrasilAccount) : Bool :=
  a.identifier == account.identifier &&
    trimEndMatchesSlash a.api_url == trimEndMatchesSlash account.api_url

/-- Embeds launch_manager.rs LauncherManager::save_account, with the loaded
collection passed in and the collection that save_accounts rewrites in full
returned: every record matching the new record's normalized key is removed
(Vec::retain keeps the non-matching ones), then the new record is pushed at
the end. -/
def save_account (accounts : List YggdrasilAccount)
    (account : YggdrasilAccount) : List YggdrasilAccount :=
  accounts.filter (fun a => !(sameAccountKey account a)) ++ [account]

/-- Embeds launch_manager.rs LauncherManager::load_auth_cache over the state
of the cache file: none when the file does not exist (Ok(None) in the
source); some (error e) when reading or JSON-parsing fails (the question
marks in the source); some (ok cache) when a cache value parses.  A parsed
cache with an empty access_token, uuid or username is discarded as
Ok(None). -/
def load_auth_cache (file : Option (Except AuthError AuthCache)) :
    Except AuthError (Option AuthCache) :=
  match file with
  | none => .ok none
  | some (.error e) => .error e
  | some (.ok cache) =>
    if cache.access_token.isEmpty || cache.uuid.isEmpty
        || cache.username.isEmpty then
      .ok none
    else
      .ok (some cache)

/-! ## Concrete fixtures used by witnesses and counterexamples -/

/-- A raw body text of a pending poll answer; its content is irrelevant. -/
def pendingBody : List Char :=
  "error authorization_pending".toList

/-- A scripted authorization-pending poll answer: HTTP 400 whose JSON body
carries the error code authorization_pending. -/
def pendingPoll : PollResponse :=
  .failure 400 (some authorizationPendingCode) pendingBody

/-- A device-code grant that expires in 5 seconds with a 10-second poll
interval. -/
def deviceCodeShort : DeviceCodeResponse :=
  { device_code := "d1".toList, user_code := "ABC-DEF".toList,
    verification_uri := "https://x".toList, expires_in := 5, interval := 10,
    message := "go".toList }

/-- A device-code grant that expires in 900 seconds with a 5-second poll
interval. -/
def deviceCodeLong : DeviceCodeResponse :=
  { device_code := "d1".toList, user_code := "ABC-DEF".toList,
    verification_uri := "https://x".toList, expires_in := 900, interval := 5,
    message := "go".toList }

/-- A successful Microsoft token set. -/
def sampleToken : MicrosoftTokenResponse :=
  { token_type := "Bearer".toList, expires_in := 3600,
    scope := "XboxLive.signin".toList, access_token := "msa-tok".toList,
    refresh_token := none }

/-- The expires_in 5 / interval 10 scenario with the user never approving. -/
def msaTimeoutTransport : MsaTransport :=
  { deviceCode := .response 200 [] (some deviceCodeShort),
    polls := [pendingPoll] }

/-- The pending, pending, success scenario under a 900-second window. -/
def msaThreeResponseTransport : MsaTransport :=
  { deviceCode := .response 200 [] (some deviceCodeLong),
    polls := [pendingPoll, pendingPoll, .success (some sampleToken)] }

/-- A device-code flow that succeeds on the first poll. -/
def msaQuickTransport : MsaTransport :=
  { deviceCode := .response 200 [] (some deviceCodeLong),
    polls := [.success (some sampleToken)] }

/-- A successful Xbox Live response. -/
def sampleXbl : XblResponse :=
  { token := "xbl-tok".toList,
    display_claims := { xui := [{ uhs := "uhs1".toList }] } }

/-- A successful XSTS response. -/
def sampleXsts : XstsResponse :=
  { token := "xsts-tok".toList,
    display_claims := { xui := [{ uhs := "uhs1".toList, xid := none }] } }

/-- A successful Minecraft-services login response. -/
def sampleLogin : MinecraftLoginResponse :=
  { username := "steve-internal".toList, roles := [],
    access_token := "mc-tok".toList, token_type := "Bearer".toList,
    expires_in := 86400 }

/-- The display name of the sample profiles. -/
def steveName : List Char :=
  "Steve".toList

/-- A profile whose id has only 3 characters, far from the 32 the slicing
assumes. -/
def shortProfile : MinecraftProfile :=
  { id := "abc".toList, name := steveName }

/-- A profile with a well-formed 32-character hex id. -/
def goodProfile : MinecraftProfile :=
  { id := hex32, name := steveName }

/-- A full-chain script that succeeds at every network stage but delivers
the 3-character profile id. -/
def cexChainTransport : ChainTransport :=
  { msa := msaQuickTransport,
    xbl := .response 200 [] (some sampleXbl),
    xsts := .response 200 [] (some sampleXsts),
    login := .response 200 [] (some sampleLogin),
    profile := .response 200 [] (some shortProfile) }

/-- A full-chain script that succeeds at every stage with the 32-character
profile id. -/
def goodChainTransport : ChainTransport :=
  { msa := msaQuickTransport,
    xbl := .response 200 [] (some sampleXbl),
    xsts := .response 200 [] (some sampleXsts),
    login := .response 200 [] (some sampleLogin),
    profile := .response 200 [] (some goodProfile) }

/-- The session cache the good chain script produces. -/
def goodCache : AuthCache :=
  { access_token := sampleLogin.access_token, uuid := dashedOf hex32,
    username := steveName }

/-- A 403 body carrying the no-Xbox-account denial code. -/
def body33 : List Char :=
  "XErr 2148916233 message".toList

/-- A persisted Yggdrasil account fixture. -/
def acctOld : YggdrasilAccount :=
  { api_url := "https://auth.example.com".toList, server_name := none,
    identifier := "alice".toList, uuid := format_uuid hex32,
    name := "Alice".toList, access_token := "tok1".toList,
    client_token := "ct1".toList, user_id := format_uuid hex32,
    user_properties := "[]".toList }

/-- The same account after a later login: same identifier, same api_url up
to a trailing slash, fresh tokens. -/
def acctNew : YggdrasilAccount :=
  { acctOld with
    api_url := "https://auth.example.com/".toList,
    access_token := "tok2".toList, client_token := "ct2".toList }

/-- A dashed 36-character uuid, as a malformed (non-32-character) profile
id. -/
def dashedId : List Char :=
  "01234567-89ab-cdef-0123-456789abcdef".toList

/-- A Yggdrasil profile whose id is already dashed. -/
def dashedProfile : YggdrasilProfile :=
  { id := dashedId, name := "Alex".toList, properties := none }

/-- A Yggdrasil user whose id is already dashed. -/
def dashedUser : YggdrasilUser :=
  { id := dashedId, properties := [] }

/-- An authenticate response carrying the dashed profile and user. -/
def dashedResponse : YggdrasilAuthenticateResponse :=
  { access_token := "at".toList, client_token := "ct".toList,
    available_profiles := [], selected_profile := some dashedProfile,
    user := some dashedUser }

/-- A selector that always fails; never invoked by the fixtures. -/
def failingSelector :
    List YggdrasilProfile → Except AuthError YggdrasilProfile :=
  fun _ => .error .noProfiles

/-- A property serializer producing the empty string. -/
def emptySerializer : List YggdrasilProperty → List Char :=
  fun _ => []

/-- A parsed session cache whose access_token is empty. -/
def emptyTokenCache : AuthCache :=
  { access_token := [], uuid := "u1".toList, username := "n1".toList }

/-- An input URL that is already normalized except for a trailing slash. -/
def cexUrlInput : List Char :=
  "https://example.com/".toList

/-- The normalized form of cexUrlInput. -/
def cexUrlNorm : List Char :=
  "https://example.com".toList

/-- A schemeless discovery input. -/
def witUrlInput : List Char :=
  "example.com".toList

/-- A relative header value for discovery. -/
def witAliValue : List Char :=
  "/api/yggdrasil".toList

/-- The absolute URL the url crate would produce for witUrlInput joined with
witAliValue. -/
def witAbsolute : List Char :=
  "https://example.com/api/yggdrasil".toList

/-! ## Helper lemmas -/

/-- Helper: format_uuid leaves any string whose length is not 32 unchanged. -/
theorem format_uuid_of_length_ne (u : List Char) (h : u.length ≠ 32) :
    format_uuid u = u := by
  unfold format_uuid
  rw [if_neg h]

/-- Helper: on a length-32 input, format_uuid returns the hyphenated blocks. -/
theorem format_uuid_of_length_eq (u : List Char) (h : u.length = 32) :
    format_uuid u =
      u.take 8 ++ '-' :: (u.drop 8).take 4 ++ '-' :: (u.drop 12).take 4
        ++ '-' :: (u.drop 16).take 4 ++ '-' :: (u.drop 20).take 12 := by
  unfold format_uuid
  rw [if_pos h]

/-- Helper: the hyphenated output of format_uuid on a length-32 input has
length 36. -/
theorem format_uuid_length_of_eq (u : List Char) (h : u.length = 32) :
    (format_uuid u).length = 36 := by
  rw [format_uuid_of_length_eq u h]
  simp [List.length_take, List.length_drop, h]

/-- Helper: a length-32 list splits as its five format_uuid blocks. -/
theorem split_into_blocks (s : List Char) (h : s.length = 32) :
    s = s.take 8 ++ ((s.drop 8).take 4 ++ ((s.drop 12).take 4
      ++ ((s.drop 16).take 4 ++ (s.drop 20).take 12))) := by
  have h20 : (s.drop 20).take 12 = s.drop 20 := by
    apply List.take_of_length_le
    simp [h]
  have d12 : (s.drop 8).drop 4 = s.drop 12 := by
    rw [List.drop_drop]
  have d16 : (s.drop 12).drop 4 = s.drop 16 := by
    rw [List.drop_drop]
  have d20 : (s.drop 16).drop 4 = s.drop 20 := by
    rw [List.drop_drop]
  calc s = s.take 8 ++ s.drop 8 := (List.take_append_drop 8 s).symm
    _ = s.take 8 ++ ((s.drop 8).take 4 ++ (s.drop 8).drop 4) := by
          rw [List.take_append_drop 4 (s.drop 8)]
    _ = s.take 8 ++ ((s.drop 8).take 4 ++ ((s.drop 12).take 4
          ++ (s.drop 12).drop 4)) := by
          rw [d12, List.take_append_drop 4 (s.drop 12)]
    _ = s.take 8 ++ ((s.drop 8).take 4 ++ ((s.drop 12).take 4
          ++ ((s.drop 16).take 4 ++ (s.drop 16).drop 4))) := by
          rw [d16, List.take_append_drop 4 (s.drop 16)]
    _ = s.take 8 ++ ((s.drop 8).take 4 ++ ((s.drop 12).take 4
          ++ ((s.drop 16).take 4 ++ (s.drop 20).take 12))) := by
          rw [d20, h20]

/-- Helper: a poll iteration that starts within the deadline and reads an
authorization-pending answer sleeps once, issues one request, and loops. -/
theorem pollLoop_pending_step
    (expiresIn interval elapsed sleeps requests : Nat)
    (rest : List PollResponse) (h : ¬ elapsed > expiresIn) :
    pollLoop expiresIn interval (pendingPoll :: rest) elapsed sleeps requests
      = pollLoop expiresIn interval rest (elapsed + max interval 1)
          (sleeps + 1) (requests + 1) := by
  rw [pollLoop, if_neg h]
  rfl

/-- Helper: a poll iteration that starts within the deadline and reads a
parsable 2xx answer sleeps once, issues one request, and succeeds. -/
theorem pollLoop_success_step
    (expiresIn interval elapsed sleeps requests : Nat)
    (rest : List PollResponse) (tok : MicrosoftTokenResponse)
    (h : ¬ elapsed > expiresIn) :
    pollLoop expiresIn interval (.success (some tok) :: rest)
        elapsed sleeps requests
      = (.ok tok, sleeps + 1, requests + 1) := by
  rw [pollLoop, if_neg h]

/-! ## C6: format_uuid inserts hyphens and is idempotent -/

/-- C6: for every 32-character string s, format_uuid splits s into blocks of
8, 4, 4, 4 and 12 characters and rejoins them with a hyphen between
consecutive blocks, i.e. inserts hyphens after characters 8, 12, 16 and 20 of
s; and format_uuid is idempotent on its own output: re-applying it to the
dashed result returns it unchanged (the result has 36 characters, so the
transforming branch is not taken again). -/
theorem format_uuid_hyphens_and_idempotent (s : List Char)
    (h : s.length = 32) :
    (∃ a b c d e : List Char, s = a ++ (b ++ (c ++ (d ++ e))) ∧
       a.length = 8 ∧ b.length = 4 ∧ c.length = 4 ∧ d.length = 4 ∧
       e.length = 12 ∧
       format_uuid s = a ++ '-' :: b ++ '-' :: c ++ '-' :: d ++ '-' :: e) ∧
    format_uuid (format_uuid s) = format_uuid s := by
  constructor
  · refine ⟨s.take 8, (s.drop 8).take 4, (s.drop 12).take 4,
      (s.drop 16).take 4, (s.drop 20).take 12,
      split_into_blocks s h, ?_, ?_, ?_, ?_, ?_, ?_⟩
    · simp [List.length_take, h]
    · simp [List.length_take, List.length_drop, h]
    · simp [List.length_take, List.length_drop, h]
    · simp [List.length_take, List.length_drop, h]
    · simp [List.length_take, List.length_drop, h]
    · exact format_uuid_of_length_eq s h
  · apply format_uuid_of_length_ne
    rw [format_uuid_length_of_eq s h]
    norm_num

/-- C6 witness: the theorem applied to a concrete 32-character hex id. -/
theorem format_uuid_hyphens_and_idempotent_witness :
    format_uuid (format_uuid hex32) = format_uuid hex32 :=
  (format_uuid_hyphens_and_idempotent hex32 (by decide)).2

/-! ## C2: the deadline check and the sleep-before-request ordering -/

/-- C2 counterexample: with expires_in = 5 seconds and poll_interval = 10
seconds and the user never approving, the device-code flow does return
Timeout, but only after performing one sleep of max(10, 1) = 10 seconds and
issuing one poll request — the sleep runs past the 5-second deadline and
the request is issued at virtual time 10, after the deadline.  This refutes
the claim that the flow returns Timeout without sleeping past the 5-second
deadline. -/
theorem msa_timeout_sleeps_past_deadline_cex :
    authenticate_with_msa msaTimeoutTransport = (.error .timeout, 1, 1) ∧
    deviceCodeShort.expires_in < 1 * max deviceCodeShort.interval 1 := by
  constructor
  · rfl
  · decide

/-- C2 amended: the deadline check sits at the top of every loop iteration,
before that iteration's sleep and poll request: whenever elapsed time
already exceeds expires_in, the loop fails with Timeout performing no
further sleep and issuing no further request (both counters are returned
unchanged, for any remaining responses).  However, the check precedes the
sleep of the same iteration, so with expires_in = 5 and poll_interval = 10
the flow first sleeps 10 seconds — past the deadline — issues one poll
request, and only then returns Timeout at the next check. -/
theorem pollLoop_timeout_check_before_request
    (expiresIn interval elapsed sleeps requests : Nat)
    (rs : List PollResponse) (h : expiresIn < elapsed) :
    pollLoop expiresIn interval rs elapsed sleeps requests
        = (.error .timeout, sleeps, requests) ∧
    authenticate_with_msa msaTimeoutTransport = (.error .timeout, 1, 1) := by
  constructor
  · cases rs <;> rw [pollLoop] <;> rw [if_pos h]
  · rfl

/-- C2 witness: the amended theorem applied with the deadline already
exceeded and one pending response still scripted: no further sleep, no
further request. -/
theorem pollLoop_timeout_check_before_request_witness :
    pollLoop 5 10 [pendingPoll] 6 1 1 = (.error .timeout, 1, 1) :=
  (pollLoop_timeout_check_before_request 5 10 6 1 1 [pendingPoll]
    (by norm_num)).1

/-! ## C3: sleeps in the pending-pending-success scenario -/

/-- C3 counterexample: for the scripted poll sequence pending, pending,
success under a 900-second window, the flow returns the success token set
after exactly three sleeps of poll_interval (and three requests), not two:
the loop sleeps before every poll request, including the first.  The claim
of exactly two sleeps is refuted. -/
theorem msa_three_sleeps_cex :
    authenticate_with_msa msaThreeResponseTransport
        = (.ok sampleToken, 3, 3) ∧
    (3 : Nat) ≠ 2 := by
  constructor
  · rfl
  · norm_num

/-- C3 amended: for any window of at least two poll intervals, the scripted
sequence pending, pending, success makes the polling loop return the success
token set after exactly three sleeps of max(interval, 1) and three poll
requests: one sleep precedes every request, including the first. -/
theorem pollLoop_pending_pending_success
    (expiresIn interval : Nat) (tok : MicrosoftTokenResponse)
    (h : 2 * max interval 1 ≤ expiresIn) :
    pollLoop expiresIn interval
        [pendingPoll, pendingPoll, .success (some tok)] 0 0 0
      = (.ok tok, 3, 3) := by
  have i1 : ¬ (0 > expiresIn) := by omega
  have i2 : ¬ (0 + max interval 1 > expiresIn) := by omega
  have i3 : ¬ (0 + max interval 1 + max interval 1 > expiresIn) := by omega
  rw [pollLoop_pending_step _ _ _ _ _ _ i1,
      pollLoop_pending_step _ _ _ _ _ _ i2,
      pollLoop_success_step _ _ _ _ _ _ _ i3]

/-- C3 witness: the amended theorem applied to the 900-second window with a
5-second interval. -/
theorem pollLoop_pending_pending_success_witness :
    pollLoop 900 5 [pendingPoll, pendingPoll, .success (some sampleToken)]
        0 0 0
      = (.ok sampleToken, 3, 3) :=
  pollLoop_pending_pending_success 900 5 sampleToken (by norm_num)

/-! ## C1: the final session uuid and the unchecked slicing -/

/-- Helper: the uuid-formatting slices succeed exactly on ids of length at
least 32, and then produce the hyphenated rendering of the first 32
characters. -/
theorem formatProfileUuid_eq (id : List Char) :
    formatProfileUuid id
      = if 32 ≤ id.length then some (dashedOf id) else none := by
  unfold formatProfileUuid rustSlice dashedOf
  split_ifs <;> first | rfl | omega

/-- Helper: a successful profile fetch returns exactly the deserialized
payload of the scripted exchange. -/
theorem get_minecraft_profile_ok (r : HttpResult MinecraftProfile)
    (p : MinecraftProfile) (h : get_minecraft_profile r = .ok p) :
    r.parsedOf = some p := by
  cases r with
  | transportErr => simp [get_minecraft_profile] at h
  | response st body parsed =>
    simp only [get_minecraft_profile] at h
    split_ifs at h
    all_goals cases parsed
    all_goals simp_all [HttpResult.parsedOf]

/-- C1 counterexample: a chain run in which every network stage succeeds but
the fetched profile id is the 3-character string abc — not 32 hex
characters — panics at the uuid slicing.  It does not return a
MalformedResponse (or any other) error, refuting the claim that the slicing
of the id is total and that a non-32-hex id yields a MalformedResponse
error. -/
theorem perform_full_authentication_short_id_panics_cex :
    perform_full_authentication cexChainTransport = .panics :=
  rfl

/-- C1 amended: every successfully completed chain run delivers as uuid the
hyphenated rendering (hyphens after characters 8, 12, 16 and 20) of the
first 32 characters of the fetched profile id — in particular, of the whole
id whenever the id has exactly 32 characters — together with the profile
name; completion requires the id to have at least 32 characters, and for
any id shorter than 32 characters the uuid slicing panics instead of
returning an error. -/
theorem perform_full_authentication_uuid_amended :
    (∀ t cache, perform_full_authentication t = .ok cache →
      ∃ p, t.profile.parsedOf = some p ∧ 32 ≤ p.id.length ∧
        cache.uuid = dashedOf p.id ∧ cache.username = p.name) ∧
    (∀ id : List Char, id.length < 32 → formatProfileUuid id = none) := by
  constructor
  · intro t cache h
    unfold perform_full_authentication at h
    repeat' split at h
    all_goals (try exact ChainOutcome.noConfusion h)
    rename_i x5 mstok heq5 x4 a b heq4 x3 c d heq3 x2 mc heq2 x1 profile
      heq1 x0 u heq0
    simp only [ChainOutcome.ok.injEq] at h
    subst h
    rw [formatProfileUuid_eq] at heq0
    by_cases hlen : 32 ≤ profile.id.length
    · rw [if_pos hlen] at heq0
      injection heq0 with hu
      exact ⟨profile, get_minecraft_profile_ok _ _ heq1, hlen,
        by simp [← hu], by simp⟩
    · rw [if_neg hlen] at heq0
      exact Option.noConfusion heq0
  · intro id h
    rw [formatProfileUuid_eq, if_neg (by omega)]

/-- C1 witness: the amended theorem applied to a fully successful chain
script with a 32-character hex profile id. -/
theorem perform_full_authentication_uuid_amended_witness :
    ∃ p, goodChainTransport.profile.parsedOf = some p ∧ 32 ≤ p.id.length ∧
      goodCache.uuid = dashedOf p.id ∧ goodCache.username = p.name :=
  perform_full_authentication_uuid_amended.1 goodChainTransport goodCache
    (by decide)

/-! ## C4: XSTS denial-code classification -/

/-- C4: on every non-2xx XSTS answer, a 403 body is classified against the
three known denial codes in source order — a body containing 2148916233 is
the no-Xbox-account denial; otherwise a body containing 2148916238 is the
child-account denial; otherwise a body containing 2148916235 is the
region-banned denial; any other 403 body, and any non-403 failure status,
yields the generic provider error carrying status and body. -/
theorem get_xsts_token_403_denial_classification
    (status : Nat) (body : List Char) (parsed : Option XstsResponse)
    (hfail : isSuccessStatus status = false) :
    (status = 403 → strContains body xstsNoXboxCode = true →
      get_xsts_token (.response status body parsed)
        = .error .noXboxAccount) ∧
    (status = 403 → strContains body xstsNoXboxCode = false →
      strContains body xstsChildCode = true →
      get_xsts_token (.response status body parsed)
        = .error .childAccountNeedsFamily) ∧
    (status = 403 → strContains body xstsNoXboxCode = false →
      strContains body xstsChildCode = false →
      strContains body xstsRegionCode = true →
      get_xsts_token (.response status body parsed)
        = .error .regionBanned) ∧
    (status = 403 → strContains body xstsNoXboxCode = false →
      strContains body xstsChildCode = false →
      strContains body xstsRegionCode = false →
      get_xsts_token (.response status body parsed)
        = .error (.providerError status body)) ∧
    (status ≠ 403 →
      get_xsts_token (.response status body parsed)
        = .error (.providerError status body)) := by
  refine ⟨?_, ?_, ?_, ?_, ?_⟩ <;> intros <;> simp_all [get_xsts_token]

/-- C4 witness: a 403 answer whose body carries 2148916233 is classified as
the no-Xbox-account denial. -/
theorem get_xsts_token_403_denial_classification_witness :
    get_xsts_token (.response 403 body33 none) = .error .noXboxAccount :=
  (get_xsts_token_403_denial_classification 403 body33 none (by decide)).1
    rfl (by decide)

/-! ## C5: save_account upsert semantics -/

/-- C5: save_account keeps exactly the loaded records that do not match the
new record's normalized (identifier, api_url) key and appends the new record
(the rewritten collection is returned in full); consequently, after two
consecutive saves whose records share the normalized key, the records
matching that key are exactly the second record — one record, carrying the
latest token values — and the first record is gone (unless it is literally
the second). -/
theorem save_account_upsert_dedup
    (st : List YggdrasilAccount) (a1 a2 : YggdrasilAccount)
    (hid : a1.identifier = a2.identifier)
    (hurl : trimEndMatchesSlash a1.api_url
      = trimEndMatchesSlash a2.api_url) :
    (∀ b, b ∈ save_account st a1 ↔
      (b ∈ st ∧ sameAccountKey a1 b = false) ∨ b = a1) ∧
    (save_account (save_account st a1) a2).filter (sameAccountKey a2)
      = [a2] ∧
    (∀ b ∈ save_account (save_account st a1) a2,
      sameAccountKey a2 b = true → b = a2) ∧
    (a1 ≠ a2 → a1 ∉ save_account (save_account st a1) a2) := by
  have hself : sameAccountKey a2 a2 = true := by
    simp [sameAccountKey]
  have hk2a1 : sameAccountKey a2 a1 = true := by
    simp [sameAccountKey, hid, hurl]
  have hmain : (save_account (save_account st a1) a2).filter
      (sameAccountKey a2) = [a2] := by
    unfold save_account
    rw [List.filter_append, List.filter_filter]
    simp [Bool.not_and_self, hself]
  have huniq : ∀ b ∈ save_account (save_account st a1) a2,
      sameAccountKey a2 b = true → b = a2 := by
    intro b hb hkey
    have hmem : b ∈ (save_account (save_account st a1) a2).filter
        (sameAccountKey a2) :=
      List.mem_filter.mpr ⟨hb, hkey⟩
    rw [hmain] at hmem
    simpa using hmem
  refine ⟨?_, hmain, huniq, ?_⟩
  · intro b
    unfold save_account
    simp [List.mem_filter, Bool.not_eq_true']
  · intro hne hmem
    exact hne (huniq a1 hmem hk2a1)

/-- C5 witness: two saves of the same account key — api_url differing only
by a trailing slash — into an empty store leave exactly the second record
for that key. -/
theorem save_account_upsert_dedup_witness :
    (save_account (save_account [] acctOld) acctNew).filter
        (sameAccountKey acctNew) = [acctNew] :=
  (save_account_upsert_dedup [] acctOld acctNew rfl (by decide)).2.1

/-! ## C7: validate and invalidate collapse to a boolean -/

/-- C7: for every access token, optional client token and transport outcome,
validate and invalidate return a boolean (no failure can propagate, by
type), and the boolean is true exactly when the transport delivered a
response whose status is 2xx; a transport failure or a non-2xx status gives
false. -/
theorem validate_invalidate_boolean_gate
    (tok : List Char) (ctok : Option (List Char))
    (send : YggdrasilValidateRequest → Option Nat) :
    (validate tok ctok send = true ↔
      ∃ st, send { access_token := tok, client_token := ctok } = some st ∧
        isSuccessStatus st = true) ∧
    (invalidate tok ctok send = true ↔
      ∃ st, send { access_token := tok, client_token := ctok } = some st ∧
        isSuccessStatus st = true) := by
  constructor <;>
  · cases h : send { access_token := tok, client_token := ctok } <;>
      simp [validate, invalidate, h]

/-- C7 witness: a 204 response makes validate return true. -/
theorem validate_invalidate_boolean_gate_witness :
    validate ("t1".toList) none (fun _ => some 204) = true :=
  ((validate_invalidate_boolean_gate ("t1".toList) none
    (fun _ => some 204)).1).mpr ⟨204, rfl, by decide⟩

/-! ## C8: resolve_api_url and the discovery header -/

/-- C8 counterexample: for the input https://example.com/ (a trailing
slash) and a discovery response without the header, resolve_api_url returns
https://example.com — the normalized url, not the original input — refuting
the claim that the original URL is returned unchanged whenever the header
is absent. -/
theorem resolve_api_url_strips_input_cex :
    resolve_api_url cexUrlInput
        (fun _ => some { status := 200, aliHeader := none })
        (fun _ _ => none)
      = .ok cexUrlNorm ∧ cexUrlNorm ≠ cexUrlInput := by
  constructor
  · rfl
  · decide

/-- C8 amended: when the discovery response carries no header, or an empty
one, resolve_api_url returns the normalized input (whitespace trimmed,
https scheme defaulted, trailing slashes stripped) rather than the input
verbatim; when the response is a success and the non-empty header joins to
an absolute URL different from the requested one, that absolute URL is
returned, stripped of trailing slashes. -/
theorem resolve_api_url_header_amended :
    (∀ (input : List Char)
       (joinUrl : List Char → List Char → Option (List Char)) (st : Nat),
      resolve_api_url input
          (fun _ => some { status := st, aliHeader := none }) joinUrl
        = .ok (trimEndMatchesSlash (normalizeInputUrl input))) ∧
    (∀ (input : List Char)
       (joinUrl : List Char → List Char → Option (List Char)) (st : Nat),
      resolve_api_url input
          (fun _ => some { status := st, aliHeader := some [] }) joinUrl
        = .ok (trimEndMatchesSlash (normalizeInputUrl input))) ∧
    (∀ (input : List Char) (st : Nat) (ali absolute : List Char),
      isSuccessStatus st = true → ali ≠ [] →
      absolute ≠ normalizeInputUrl input →
      resolve_api_url input
          (fun _ => some { status := st, aliHeader := some ali })
          (fun _ _ => some absolute)
        = .ok (trimEndMatchesSlash absolute)) := by
  refine ⟨?_, ?_, ?_⟩
  · intro input joinUrl st
    simp only [resolve_api_url]
    split_ifs <;> rfl
  · intro input joinUrl st
    simp only [resolve_api_url]
    split_ifs <;> first | rfl | simp_all
  · intro input st ali absolute hsucc hali hne
    have hely : ali.isEmpty = false := by
      cases ali
      · simp at hali
      · rfl
    simp only [resolve_api_url]
    rw [hsucc]
    simp only [hely, if_pos, if_neg, Bool.false_eq_true, if_false]
    rw [if_neg hne]

/-- C8 witness: a schemeless input with a successful discovery response
whose header joins to a different absolute URL adopts that URL. -/
theorem resolve_api_url_header_amended_witness :
    resolve_api_url witUrlInput
        (fun _ => some { status := 200, aliHeader := some witAliValue })
        (fun _ _ => some witAbsolute)
      = .ok (trimEndMatchesSlash witAbsolute) :=
  resolve_api_url_header_amended.2.2 witUrlInput 200 witAliValue witAbsolute
    (by decide) (by decide) (by decide)

/-! ## C9: non-32-character ids pass through verbatim -/

/-- C9: format_uuid returns any input whose length differs from 32
unchanged, and the Yggdrasil account construction therefore stores a
non-32-character selected-profile id and user id verbatim as the account's
uuid and user_id. -/
theorem format_uuid_passthrough_non32 :
    (∀ s : List Char, s.length ≠ 32 → format_uuid s = s) ∧
    (∀ (selector : List YggdrasilProfile →
          Except AuthError YggdrasilProfile)
       (serializeProps : List YggdrasilProperty → List Char)
       (api : List Char) (server : Option (List Char)) (ident : List Char)
       (response : YggdrasilAuthenticateResponse)
       (profile : YggdrasilProfile) (user : YggdrasilUser),
      response.selected_profile = some profile → response.user = some user →
      profile.id.length ≠ 32 → user.id.length ≠ 32 →
      ∃ acc, from_auth_response_with_profile_selection selector
          serializeProps api server ident response = .ok acc ∧
        acc.uuid = profile.id ∧ acc.user_id = user.id) := by
  constructor
  · exact format_uuid_of_length_ne
  · intro sel ser api server ident response profile user hsel huser hp hu
    refine ⟨{ api_url := api, server_name := server, identifier := ident,
              uuid := profile.id, name := profile.name,
              access_token := response.access_token,
              client_token := response.client_token,
              user_id := user.id,
              user_properties := ser user.properties }, ?_, rfl, rfl⟩
    simp [from_auth_response_with_profile_selection, hsel, huser,
      format_uuid_of_length_ne _ hp, format_uuid_of_length_ne _ hu]

/-- C9 witness: a 36-character dashed profile id and user id pass through
the account construction verbatim. -/
theorem format_uuid_passthrough_non32_witness :
    ∃ acc, from_auth_response_with_profile_selection failingSelector
        emptySerializer acctOld.api_url none acctOld.identifier
        dashedResponse = .ok acc ∧
      acc.uuid = dashedProfile.id ∧ acc.user_id = dashedUser.id :=
  format_uuid_passthrough_non32.2 failingSelector emptySerializer
    acctOld.api_url none acctOld.identifier dashedResponse dashedProfile
    dashedUser rfl rfl (by decide) (by decide)

/-! ## C10: empty cached fields behave like a missing cache -/

/-- C10: load_auth_cache returns Ok(None) when the cache file does not
exist, and equally returns Ok(None) for any parsed cache in which
access_token, uuid or username is the empty string — such a cache is never
handed onward. -/
theorem load_auth_cache_empty_field_none :
    load_auth_cache none = .ok none ∧
    (∀ cache : AuthCache,
      cache.access_token = [] ∨ cache.uuid = [] ∨ cache.username = [] →
      load_auth_cache (some (.ok cache)) = .ok none) := by
  constructor
  · rfl
  · intro cache h
    unfold load_auth_cache
    rcases h with h | h | h <;> simp [h]

/-- C10 witness: a parsed cache with an empty access token is treated like a
missing cache. -/
theorem load_auth_cache_empty_field_none_witness :
    load_auth_cache (some (.ok emptyTokenCache)) = .ok none :=
  load_auth_cache_empty_field_none.2 emptyTokenCache (Or.inl rfl)

end LauncherCore

